import Mathlib

/-!
Verification of the client-side behavior of the Headquarters Ventures website
(src/scripts/app.js) against its natural-language specification.

The JavaScript source is shallowly embedded in Lean:
JS numbers are modelled as `ℚ` (`Rat`), JS strings as `String`,
possibly-absent values as `Option`, thrown-and-caught exceptions as
`Except Unit`, and each call to `Math.random()` as an explicitly passed
rational draw in `[0, 1)`.  Timer-driven state (the portfolio simulator) is
modelled as a step function iterated over discrete ticks.
-/

/-! ## JSON values and the content loaders (loadConfig / loadEpisodes / loadPosts)

The three loaders `fetch` a same-origin JSON document and read fields off the
parsed value.  A fetch/parse failure is modelled as `Except.error ()` handed to
the loader; a successful parse hands over the parsed `Json` value.
-/

/-- Parsed JSON values (the possible results of `response.json()`). -/
inductive Json where
  | null : Json
  | bool : Bool → Json
  | num : ℚ → Json
  | str : String → Json
  | arr : List Json → Json
  | obj : List (String × Json) → Json

/-- JS property access `v[key]`: throws (`Except.error`) on `null`, returns the
field on objects (`none` when absent, i.e. `undefined`), and `undefined` on all
other values. -/
def Json.getField : Json → String → Except Unit (Option Json)
  | Json.null, _ => Except.error ()
  | Json.obj fields, key => Except.ok (fields.lookup key)
  | _, _ => Except.ok none

/-- JS truthiness of a JSON value. -/
def Json.truthy : Json → Bool
  | Json.null => false
  | Json.bool b => b
  | Json.num q => decide (q ≠ 0)
  | Json.str s => decide (s ≠ "")
  | Json.arr _ => true
  | Json.obj _ => true

/-- The literal fallback configuration object built in `loadConfig`'s catch
block. -/
def fallbackConfig : Json :=
  Json.obj
    [("site_name", Json.str "Headquarters Ventures"),
     ("tagline", Json.str "Business, comedy, and the occasional bad idea."),
     ("accent_color", Json.str "#FFD200"),
     ("on_air", Json.bool false),
     ("social", Json.obj
       [("x", Json.str "#"), ("youtube", Json.str "#"),
        ("spotify", Json.str "#"), ("apple", Json.str "#")])]

/-- `loadConfig`: `this.config = await response.json()`, with the literal
fallback object substituted when the fetch or the parse fails. -/
def loadConfig (r : Except Unit Json) : Json :=
  match r with
  | Except.error _ => fallbackConfig
  | Except.ok j => j

/-- `loadEpisodes`: `this.episodes = data.episodes`, with `[]` substituted when
the fetch, the parse, or the property access throws.  The result is `none` when
`data.episodes` is `undefined` (the assignment stores `undefined`, which no
catch block turns into a list). -/
def loadEpisodes (r : Except Unit Json) : Option Json :=
  match r with
  | Except.error _ => some (Json.arr [])
  | Except.ok data =>
    match data.getField "episodes" with
    | Except.error _ => some (Json.arr [])
    | Except.ok v => v

/-- The body of the arrow function `post => post.published` used by
`loadPosts`, including the exception thrown when `post` is `null`. -/
def postPublished (p : Json) : Except Unit Bool :=
  match p.getField "published" with
  | Except.error e => Except.error e
  | Except.ok f => Except.ok ((f.map Json.truthy).getD false)

/-- `data.posts.filter(post => post.published)` on an array value: keeps the
truthy-`published` elements, propagating any exception thrown by the callback. -/
def filterPublished : List Json → Except Unit (List Json)
  | [] => Except.ok []
  | p :: ps =>
    match postPublished p with
    | Except.error e => Except.error e
    | Except.ok keep =>
      match filterPublished ps with
      | Except.error e => Except.error e
      | Except.ok rest => Except.ok (if keep then p :: rest else rest)

/-- `loadPosts`: `this.posts = data.posts.filter(post => post.published)`, with
`[]` substituted whenever any step throws — fetch/parse failure, `data` being
`null`, `data.posts` being `undefined` or not an array (no `.filter` method),
or a `null` element inside the array. -/
def loadPosts (r : Except Unit Json) : List Json :=
  match r with
  | Except.error _ => []
  | Except.ok data =>
    match data.getField "posts" with
    | Except.error _ => []
    | Except.ok none => []
    | Except.ok (some (Json.arr ps)) =>
      match filterPublished ps with
      | Except.error _ => []
      | Except.ok out => out
    | Except.ok (some _) => []

/-! ## Typed entities and the renderer

Episodes and posts as used by the rendering pipeline.  A date string is
modelled by the timestamp `new Date(s)` would yield (an integer), and
`toLocaleDateString` is an uninterpreted formatter `Int → String` passed to the
card builders. -/

structure Episode where
  number : Nat
  title : String
  description : String
  date : Int
  duration : String
  guest : Option String
  featured : Bool
deriving DecidableEq

structure Post where
  id : Nat
  title : String
  excerpt : String
  date : Int
  category : String
  url : Option String
  published : Bool
deriving DecidableEq

/-- JS truthiness of a possibly-absent string (absent and `""` are falsy). -/
def jsTruthyStr (o : Option String) : Bool :=
  match o with
  | some s => decide (s ≠ "")
  | none => false

/-- The guest line of an episode card:
`episode.guest ? `<div class="episode-guest">Guest: ${episode.guest}</div>` : ''`. -/
def guestLine (e : Episode) : String :=
  if jsTruthyStr e.guest then
    "<div class=\"episode-guest\">" ++ ("Guest: " ++ (e.guest.getD "" ++ "</div>"))
  else ""

/-- `createEpisodeCard`: the template literal of app.js with each `${...}`
interpolation spliced in verbatim by string concatenation. -/
def createEpisodeCard (fmtDate : Int → String) (e : Episode) : String :=
  let date := fmtDate e.date
  "\n            <div class=\"episode-card\">\n                <div class=\"episode-number\">Episode "
    ++ (toString e.number
    ++ ("</div>\n                <h3 class=\"episode-title\">"
    ++ (e.title
    ++ ("</h3>\n                <p class=\"episode-description\">"
    ++ (e.description
    ++ ("</p>\n                <div class=\"episode-meta\">\n                    <span>"
    ++ (date
    ++ ("</span>\n                    <span>"
    ++ (e.duration
    ++ ("</span>\n                </div>\n                "
    ++ (guestLine e
    ++ "\n            </div>\n        ")))))))))))

/-- `post.url || default` (a falsy — absent or empty — url selects the
default). -/
def jsStrOr (o : Option String) (dflt : String) : String :=
  if jsTruthyStr o then o.getD "" else dflt

/-- `createPostCard`: the template literal of app.js with each `${...}`
interpolation spliced in verbatim, including the url/target selection
`post.url || /post.html?id=${post.id}` and `post.url ? _blank : _self`. -/
def createPostCard (fmtDate : Int → String) (p : Post) : String :=
  let date := fmtDate p.date
  let postUrl := jsStrOr p.url ("/post.html?id=" ++ toString p.id)
  let linkTarget := if jsTruthyStr p.url then "_blank" else "_self"
  "\n            <article class=\"post-card\">\n                <div class=\"post-content\">\n                    <div class=\"post-date\">"
    ++ (date
    ++ ("</div>\n                    <h3 class=\"post-title\">\n                        <a href=\""
    ++ (postUrl
    ++ ("\" target=\""
    ++ (linkTarget
    ++ ("\">"
    ++ (p.title
    ++ ("</a>\n                    </h3>\n                    <p class=\"post-excerpt\">"
    ++ (p.excerpt
    ++ ("</p>\n                    <div class=\"post-category\">"
    ++ (p.category
    ++ "</div>\n                </div>\n            </article>\n        ")))))))))))

/-! ## The display pipelines (loadLatestEpisodes / loadRecentPosts) -/

/-- `loadLatestEpisodes`: `this.episodes.filter(ep => ep.featured).slice(0, 3)`. -/
def loadLatestEpisodes (episodes : List Episode) : List Episode :=
  (episodes.filter (fun e => e.featured)).take 3

/-- The `published` filter applied by `loadPosts` on the success path. -/
def publishedPosts (posts : List Post) : List Post :=
  posts.filter (fun p => p.published)

/-- The JS sort comparator `(a, b) => new Date(b.date) - new Date(a.date)` as a
"may come first" boolean relation: `a` may precede `b` iff the comparator is
`≤ 0`, i.e. `b.date ≤ a.date`. -/
def postDateDescLe (a b : Post) : Bool :=
  decide (b.date ≤ a.date)

/-- `loadRecentPosts`: `this.posts.sort(comparator).slice(0, 3)` — a stable
sort by date descending followed by taking the first three. -/
def loadRecentPosts (posts : List Post) : List Post :=
  (posts.mergeSort postDateDescLe).take 3

/-- The posts actually rendered: `loadRecentPosts` applied to the
`published`-filtered list stored by `loadPosts`. -/
def renderedRecentPosts (posts : List Post) : List Post :=
  loadRecentPosts (publishedPosts posts)

/-! ## The decorative portfolio simulator (setupPortfolioTracker)

State mutated by the 30-second interval callback.  Each `Math.random()` call of
a tick is an explicit draw; the DOM text updates (`toFixed` renderings of the
numbers below) are modelled by the numbers themselves. -/

structure Holding where
  symbol : String
  name : String
  shares : ℚ
  price : ℚ
deriving DecidableEq

/-- The ten seeded holdings of `setupPortfolioTracker`. -/
def portfolioHoldings : List Holding :=
  [⟨"AAPL", "Apple Inc.", 12, 17550/100⟩,
   ⟨"MSFT", "Microsoft Corp.", 8, 41025/100⟩,
   ⟨"GOOGL", "Alphabet Inc.", 15, 14080/100⟩,
   ⟨"AMZN", "Amazon.com Inc.", 6, 18045/100⟩,
   ⟨"TSLA", "Tesla Inc.", 20, 25090/100⟩,
   ⟨"NVDA", "NVIDIA Corp.", 3, 88060/100⟩,
   ⟨"META", "Meta Platforms", 10, 32015/100⟩,
   ⟨"NFLX", "Netflix Inc.", 4, 45030/100⟩,
   ⟨"V", "Visa Inc.", 7, 26040/100⟩,
   ⟨"JPM", "JPMorgan Chase", 9, 14525/100⟩]

/-- `holdings.reduce((sum, holding) => sum + holding.shares * holding.price, 0)`. -/
def portfolioTotal (hs : List Holding) : ℚ :=
  hs.foldl (fun sum h => sum + h.shares * h.price) 0

/-- A holding enriched by `updatePortfolioHoldings`'s map step with its value
and its percentage of the portfolio. -/
structure KeyHolding where
  symbol : String
  name : String
  shares : ℚ
  price : ℚ
  value : ℚ
  percentage : ℚ
deriving DecidableEq

/-- The map step of `updatePortfolioHoldings`:
`{ ...holding, value: shares * price, percentage: shares * price / totalValue * 100 }`. -/
def toKeyHolding (totalValue : ℚ) (h : Holding) : KeyHolding :=
  { symbol := h.symbol, name := h.name, shares := h.shares, price := h.price,
    value := h.shares * h.price,
    percentage := h.shares * h.price / totalValue * 100 }

/-- The comparator `(a, b) => b.percentage - a.percentage` as a "may come
first" boolean relation. -/
def keyHoldingLe (a b : KeyHolding) : Bool :=
  decide (b.percentage ≤ a.percentage)

/-- `updatePortfolioHoldings`: map to value/percentage, keep the holdings with
`percentage > 10`, stable-sort by percentage descending.  The returned list is
the one the holdings HTML is generated from. -/
def updatePortfolioHoldings (hs : List Holding) (totalValue : ℚ) : List KeyHolding :=
  ((hs.map (toKeyHolding totalValue)).filter
      (fun k => decide (10 < k.percentage))).mergeSort keyHoldingLe

/-- `generateMockChartData`: `for (let i = 0; i <= points; i++)` with
`points = 20`, pushing `startPrice + step * i + noise` each iteration, where
the noise term is `(Math.random() - 0.5) * 2`. -/
def generateMockChartData (startPrice endPrice : ℚ) (noise : ℕ → ℚ) : List ℚ :=
  let points : ℕ := 20
  let step := (endPrice - startPrice) / (points : ℚ)
  (List.range (points + 1)).map
    (fun (i : ℕ) => startPrice + step * (i : ℚ) + (noise i - 1/2) * 2)

/-- The numeric content written to the DOM by `updatePortfolioDisplay` (each
text node renders one of these numbers via `toFixed`). -/
structure PortfolioDisplay where
  statusIndicator : String
  changeShown : ℚ
  changePercentShown : ℚ
  aaplValueShown : ℚ
  totalValueShown : ℚ
deriving DecidableEq

/-- `updatePortfolioDisplay(change, changePercent, totalValue)`: the `▲`/`▼`
indicator is chosen by `change >= 0`; the `total-value` (and `aapl-value`)
elements render the `totalValue` argument. -/
def updatePortfolioDisplay (change changePercent totalValue : ℚ) : PortfolioDisplay :=
  { statusIndicator := if 0 ≤ change then "▲" else "▼",
    changeShown := change,
    changePercentShown := changePercent,
    aaplValueShown := totalValue,
    totalValueShown := totalValue }

/-- One holding's price update inside the interval callback:
`fluctuation = (Math.random() - 0.5) * 0.02; holding.price *= (1 + fluctuation)`. -/
def updateHoldingPrice (r : ℚ) (h : Holding) : Holding :=
  { h with price := h.price * (1 + (r - 1/2) * (2/100)) }

/-- The `forEach` jitter loop: each holding gets its own `Math.random()` draw,
in order (`i` is the index of the next draw). -/
def jitterHoldings (rs : ℕ → ℚ) : List Holding → ℕ → List Holding
  | [], _ => []
  | h :: t, i => updateHoldingPrice (rs i) h :: jitterHoldings rs t (i + 1)

/-- The mutable state of the portfolio tracker: the holdings array, the
captured `previousValue`, the chart series, and what the last
`updatePortfolioDisplay` / `updatePortfolioHoldings` calls rendered. -/
structure PortfolioSim where
  holdings : List Holding
  previousValue : ℚ
  chartData : List ℚ
  display : PortfolioDisplay
  keyHoldings : List KeyHolding

/-- `setupPortfolioTracker` before the first interval tick: seeded holdings,
`previousValue = totalValue * 0.985`, derived change/percent, initial chart
series, and the initial render. -/
def setupPortfolioTracker (noise : ℕ → ℚ) : PortfolioSim :=
  let holdings := portfolioHoldings
  let totalValue := portfolioTotal holdings
  let previousValue := totalValue * (985/1000)
  let change := totalValue - previousValue
  let changePercent := change / previousValue * 100
  { holdings := holdings,
    previousValue := previousValue,
    chartData := generateMockChartData previousValue totalValue noise,
    display := updatePortfolioDisplay change changePercent totalValue,
    keyHoldings := updatePortfolioHoldings holdings totalValue }

/-- One 30-second interval tick: jitter every holding, recompute the total and
the change against the captured `previousValue`, re-render, push the new total
onto the chart series and `shift` once when its length exceeds 20. -/
def portfolioStep (rs : ℕ → ℚ) (s : PortfolioSim) : PortfolioSim :=
  let holdings := jitterHoldings rs s.holdings 0
  let totalValue := portfolioTotal holdings
  let change := totalValue - s.previousValue
  let changePercent := change / s.previousValue * 100
  let pushed := s.chartData ++ [totalValue]
  let chartData := if 20 < pushed.length then pushed.tail else pushed
  { holdings := holdings,
    previousValue := s.previousValue,
    chartData := chartData,
    display := updatePortfolioDisplay change changePercent totalValue,
    keyHoldings := updatePortfolioHoldings holdings totalValue }

/-- The tracker state after `n` interval ticks (`rs n` supplies tick `n`'s
per-holding draws). -/
def portfolioAfter (rs : ℕ → ℕ → ℚ) (noise : ℕ → ℚ) : ℕ → PortfolioSim
  | 0 => setupPortfolioTracker noise
  | n + 1 => portfolioStep (rs n) (portfolioAfter rs noise n)

/-! ## The newsletter-subscribe action (subscribeToNewsletter) -/

/-- An uppercase hexadecimal digit (as used by `encodeURIComponent`). -/
def hexDigit (n : ℕ) : Char :=
  if n < 10 then Char.ofNat (48 + n) else Char.ofNat (55 + n)

/-- The characters `encodeURIComponent` leaves unescaped:
`A-Z a-z 0-9 - _ . ! ~ * ' ( )`. -/
def uriUnreserved (c : Char) : Bool :=
  (('A' ≤ c && c ≤ 'Z') || ('a' ≤ c && c ≤ 'z') || ('0' ≤ c && c ≤ '9')
    || c == '-' || c == '_' || c == '.' || c == '!' || c == '~' || c == '*'
    || c == Char.ofNat 39 || c == '(' || c == ')')

/-- The UTF-8 bytes of a character. -/
def utf8Bytes (c : Char) : List ℕ :=
  let n := c.toNat
  if n < 128 then [n]
  else if n < 2048 then [192 + n / 64, 128 + n % 64]
  else if n < 65536 then [224 + n / 4096, 128 + n / 64 % 64, 128 + n % 64]
  else [240 + n / 262144, 128 + n / 4096 % 64, 128 + n / 64 % 64, 128 + n % 64]

/-- A percent-encoded byte, `%HH`. -/
def percentByte (n : ℕ) : String :=
  String.mk ['%', hexDigit (n / 16), hexDigit (n % 16)]

/-- The JS builtin `encodeURIComponent`: unreserved characters kept, every
other character percent-encoded bytewise in UTF-8. -/
def encodeURIComponent (s : String) : String :=
  String.join (s.data.map
    (fun c => if uriUnreserved c then String.mk [c]
              else String.join ((utf8Bytes c).map percentByte)))

/-- The JS builtin `String.prototype.trim`: strip leading and trailing
whitespace. -/
def jsTrim (s : String) : String :=
  String.mk
    (((s.data.dropWhile Char.isWhitespace).reverse.dropWhile
        Char.isWhitespace).reverse)

/-- JS `s.includes(c)` for a single-character needle. -/
def jsIncludesChar (s : String) (c : Char) : Bool :=
  s.data.contains c

/-- The observable outcome of one `subscribeToNewsletter()` call: the alert
shown (if any), the URL passed to `window.open` (if any), and the value left
in the email input field. -/
structure NewsletterResult where
  alertMessage : Option String
  openedUrl : Option String
  inputValue : String
deriving DecidableEq

/-- `subscribeToNewsletter`, as a function of the email input field's value:
trim, reject empty, reject addresses without `@`, otherwise open the beehiiv
subscribe URL with the address URL-encoded and clear the field. -/
def subscribeToNewsletter (inputValue : String) : NewsletterResult :=
  let email := jsTrim inputValue
  if email = "" then
    { alertMessage := some "Please enter your email address",
      openedUrl := none, inputValue := inputValue }
  else if !(jsIncludesChar email '@') then
    { alertMessage := some "Please enter a valid email address",
      openedUrl := none, inputValue := inputValue }
  else
    { alertMessage := none,
      openedUrl := some ("https://in-competence-we-trust.beehiiv.com/subscribe?email="
        ++ encodeURIComponent email),
      inputValue := "" }

/-! ## The stock ticker quote batch (fetchStockData / getMockStockData) -/

structure StockQuote where
  symbol : String
  price : ℚ
  change : ℚ
  changePercent : ℚ
deriving DecidableEq

/-- The fields Finnhub's quote endpoint may return (`c`, `d`, `dp`); `none`
models an absent field (`undefined`). -/
structure QuoteJson where
  c : Option ℚ
  d : Option ℚ
  dp : Option ℚ

/-- One symbol's fetch outcome: a thrown/rejected fetch, or a parsed response. -/
inductive QuoteFetch where
  | err : QuoteFetch
  | ok : QuoteJson → QuoteFetch

/-- JS `x || dflt` on a possibly-absent number (absent and `0` are falsy). -/
def jsNumOr (o : Option ℚ) (dflt : ℚ) : ℚ :=
  match o with
  | some q => if q ≠ 0 then q else dflt
  | none => dflt

/-- The `basePrices` table of `getMockStockData`. -/
def basePrices : List (String × ℚ) :=
  [("AAPL", 175), ("MSFT", 410), ("GOOGL", 140), ("AMZN", 180), ("TSLA", 250),
   ("NVDA", 880), ("META", 320), ("NFLX", 450), ("JPM", 145), ("BAC", 35),
   ("V", 260), ("MA", 410), ("JNJ", 160), ("UNH", 520), ("PG", 155),
   ("HD", 330), ("WMT", 165), ("DIS", 95), ("KO", 60), ("PEP", 170),
   ("NKE", 105), ("MCD", 290), ("COST", 720), ("SBUX", 95), ("BA", 210),
   ("CAT", 340), ("XOM", 110), ("CVX", 155), ("SPY", 480), ("QQQ", 390)]

/-- `getMockStockData(symbol)` with its three `Math.random()` draws made
explicit (`r1` only matters for symbols outside the table). -/
def getMockStockData (r1 r2 r3 : ℚ) (symbol : String) : StockQuote :=
  let basePrice := jsNumOr (basePrices.lookup symbol) (r1 * 300 + 50)
  let volatility := r2 * (5/100) + 1/100
  let change := (r3 - 1/2) * basePrice * volatility
  let price := basePrice + change
  let changePercent := change / basePrice * 100
  { symbol := symbol, price := price, change := change,
    changePercent := changePercent }

/-- The synthetic quote produced for `s` from its three draws. -/
def mockQuote (rand : String → ℚ × ℚ × ℚ) (s : String) : StockQuote :=
  getMockStockData (rand s).1 (rand s).2.1 (rand s).2.2 s

/-- The per-symbol promise body of `fetchStockData`: the real quote when the
fetch succeeded and `data.c` is truthy and positive, otherwise the synthetic
fallback quote. -/
def quoteFor (responses : String → QuoteFetch) (rand : String → ℚ × ℚ × ℚ)
    (s : String) : StockQuote :=
  match responses s with
  | QuoteFetch.err => mockQuote rand s
  | QuoteFetch.ok data =>
    match data.c with
    | some c =>
      if 0 < c then
        { symbol := s, price := c, change := jsNumOr data.d 0,
          changePercent := jsNumOr data.dp 0 }
      else mockQuote rand s
    | none => mockQuote rand s

/-- `fetchStockData(symbols)`: one promise per symbol collected in order by
`Promise.all`, then `results.filter(Boolean)` (every element is a truthy
object); the outer catch maps every symbol to its synthetic quote. -/
def fetchStockData (symbols : List String) (responses : String → QuoteFetch)
    (rand : String → ℚ × ℚ × ℚ) (batchFails : Bool) : List StockQuote :=
  if batchFails then symbols.map (mockQuote rand)
  else (symbols.map (quoteFor responses rand)).filter (fun _ => true)

/-! ## Helper lemmas -/

theorem getMockStockData_symbol (r1 r2 r3 : ℚ) (s : String) :
    (getMockStockData r1 r2 r3 s).symbol = s := rfl

theorem mockQuote_symbol (rand : String → ℚ × ℚ × ℚ) (s : String) :
    (mockQuote rand s).symbol = s := rfl

theorem quoteFor_symbol (responses : String → QuoteFetch)
    (rand : String → ℚ × ℚ × ℚ) (s : String) :
    (quoteFor responses rand s).symbol = s := by
  unfold quoteFor
  cases responses s with
  | err => rfl
  | ok data =>
    rcases data with ⟨c, d, dp⟩
    cases c with
    | none => rfl
    | some q =>
      by_cases h : 0 < q <;> simp [h, mockQuote_symbol]

theorem map_symbol_eq (f : String → StockQuote) (hf : ∀ s, (f s).symbol = s) :
    ∀ l : List String, (l.map f).map StockQuote.symbol = l := by
  intro l
  induction l with
  | nil => rfl
  | cons s t ih => simp [hf, ih]

theorem foldl_add_shares_price (hs : List Holding) (a : ℚ) :
    hs.foldl (fun sum h => sum + h.shares * h.price) a
      = a + (hs.map (fun h => h.shares * h.price)).sum := by
  induction hs generalizing a with
  | nil => simp
  | cons hd tl ih => simp [ih, add_assoc]

theorem portfolioTotal_eq_sum (hs : List Holding) :
    portfolioTotal hs = (hs.map (fun h => h.shares * h.price)).sum := by
  simp [portfolioTotal, foldl_add_shares_price]

theorem jitterHoldings_length (rs : ℕ → ℚ) (hs : List Holding) (i : ℕ) :
    (jitterHoldings rs hs i).length = hs.length := by
  induction hs generalizing i with
  | nil => rfl
  | cons hd tl ih => simp [jitterHoldings, ih]

theorem jitterHoldings_getElem (rs : ℕ → ℚ) (hs : List Holding) (i0 i : ℕ) :
    (jitterHoldings rs hs i0)[i]? = (hs[i]?).map (updateHoldingPrice (rs (i0 + i))) := by
  induction hs generalizing i0 i with
  | nil => simp [jitterHoldings]
  | cons hd tl ih =>
    cases i with
    | zero => simp [jitterHoldings]
    | succ j =>
      have h : i0 + 1 + j = i0 + (j + 1) := by omega
      simp [jitterHoldings, ih (i0 + 1) j, h]

/-! ## Claim C3 (content-load failure handling) -/

/-- Claim C3, counterexample: a successfully parsed episodes document with no
`episodes` field leaves `this.episodes` equal to `undefined`, not the empty
list the claim requires. -/
theorem c3_load_defaults_counterexample :
    loadEpisodes (Except.ok (Json.obj [])) = none
    ∧ loadEpisodes (Except.ok (Json.obj [])) ≠ some (Json.arr []) :=
  ⟨rfl, fun h => nomatch h⟩

/-- Claim C3, amended: network and parse failures produce the documented
defaults for all three loads and never propagate; malformed-but-parseable
shapes are normalized to the empty list only for posts (missing or
unfilterable `posts` field, or a `null` document), while config keeps any
parsed value as-is and episodes stores the `episodes` field verbatim. -/
theorem c3_load_defaults_amended :
    loadConfig (Except.error ()) = fallbackConfig
    ∧ loadEpisodes (Except.error ()) = some (Json.arr [])
    ∧ loadPosts (Except.error ()) = []
    ∧ (∀ j : Json, loadConfig (Except.ok j) = j)
    ∧ loadEpisodes (Except.ok Json.null) = some (Json.arr [])
    ∧ loadPosts (Except.ok Json.null) = []
    ∧ loadPosts (Except.ok (Json.obj [])) = []
    ∧ loadPosts (Except.ok (Json.obj [("posts", Json.num 3)])) = []
    ∧ (∀ ps : List Json,
        loadPosts (Except.ok (Json.obj [("posts", Json.arr ps)]))
          = (filterPublished ps).toOption.getD []) := by
  refine ⟨rfl, rfl, rfl, fun _ => rfl, rfl, rfl, rfl, rfl, ?_⟩
  intro ps
  cases h : filterPublished ps with
  | ok out => simp [loadPosts, Json.getField, List.lookup, h, Except.toOption]
  | error e => simp [loadPosts, Json.getField, List.lookup, h, Except.toOption]

/-! ## Claim C5 (latest episodes pipeline) -/

/-- Claim C5: the rendered episode set has at most 3 entries, all featured, and
is a sublist of the input list (hence in the original relative order). -/
theorem c5_latest_episodes_spec (episodes : List Episode) :
    (loadLatestEpisodes episodes).length ≤ 3
    ∧ (loadLatestEpisodes episodes).all (fun e => e.featured) = true
    ∧ List.Sublist (loadLatestEpisodes episodes) episodes := by
  refine ⟨?_, ?_, ?_⟩
  · exact List.length_take_le 3 _
  · rw [List.all_eq_true]
    intro e he
    exact List.of_mem_filter (List.take_subset 3 _ he)
  · exact (List.take_sublist _ _).trans (List.filter_sublist _)

/-! ## Claim C10 (ticker quote batch shape) -/

/-- Claim C10: `fetchStockData` returns exactly one quote per requested symbol
in input order, whatever the per-symbol outcomes, the batch outcome and the
random draws are — failing symbols get synthetic quotes, none are dropped. -/
theorem c10_ticker_batch_spec (symbols : List String)
    (responses : String → QuoteFetch) (rand : String → ℚ × ℚ × ℚ)
    (batchFails : Bool) :
    (fetchStockData symbols responses rand batchFails).map StockQuote.symbol
      = symbols := by
  unfold fetchStockData
  cases batchFails with
  | false =>
    simp only [Bool.false_eq_true, if_false, List.filter_true]
    exact map_symbol_eq _ (quoteFor_symbol responses rand) symbols
  | true =>
    simp only [if_true]
    exact map_symbol_eq _ (mockQuote_symbol rand) symbols

/-! ## Claim C2 (chart series length — code bug) -/

/-- Claim C2 is violated by the code: `generateMockChartData` runs its loop for
`i = 0 .. 20` inclusive and therefore produces 21 points, not 20, and each
interval tick (push, then a single shift once the length exceeds 20) keeps the
series at 21 points forever — contradicting the code's own comment
"Keep only last 20 points". -/
theorem c2_chart_series_has_21_points (startPrice endPrice : ℚ) (noise : ℕ → ℚ)
    (rs : ℕ → ℕ → ℚ) (n : ℕ) :
    (generateMockChartData startPrice endPrice noise).length = 21
    ∧ (portfolioAfter rs noise n).chartData.length = 21 := by
  have hgen : ∀ s e ns, (generateMockChartData s e ns).length = 21 := by
    intro s e ns
    simp [generateMockChartData]
  refine ⟨hgen _ _ _, ?_⟩
  induction n with
  | zero => exact hgen _ _ _
  | succ n ih =>
    simp only [portfolioAfter, portfolioStep]
    simp [List.length_append, ih]

/-! ## Claim C6 (jitter stays within ±1%) -/

/-- Claim C6: after one 30-second jitter cycle, each holding's new price equals
its old price times `1 + (r - 0.5) * 0.02`, a factor that lies in
`[0.99, 1.01]` for every draw `r` in `[0, 1)`. -/
theorem c6_jitter_within_one_percent (hs : List Holding) (rs : ℕ → ℚ) (i : ℕ)
    (hld : Holding) (hr : ∀ j, 0 ≤ rs j ∧ rs j < 1) (hi : hs[i]? = some hld) :
    (jitterHoldings rs hs 0)[i]? = some (updateHoldingPrice (rs i) hld)
    ∧ (updateHoldingPrice (rs i) hld).price
        = hld.price * (1 + (rs i - 1/2) * (2/100))
    ∧ (99 : ℚ)/100 ≤ 1 + (rs i - 1/2) * (2/100)
    ∧ 1 + (rs i - 1/2) * (2/100) ≤ (101 : ℚ)/100 := by
  obtain ⟨h0, h1⟩ := hr i
  refine ⟨?_, rfl, by linarith, by linarith⟩
  simp [jitterHoldings_getElem, hi]

/-- A constant sequence of draws, all equal to 1/2. -/
def halfDraws : ℕ → ℚ := fun _ => 1/2

/-- The first seeded holding. -/
def appleHolding : Holding := ⟨"AAPL", "Apple Inc.", 12, 17550/100⟩

/-- Witness for C6 at the seeded holdings and the constant draw 1/2. -/
theorem c6_jitter_within_one_percent_witness :
    (∀ j : ℕ, 0 ≤ halfDraws j ∧ halfDraws j < 1)
    ∧ portfolioHoldings[0]? = some appleHolding
    ∧ ((jitterHoldings halfDraws portfolioHoldings 0)[0]?
          = some (updateHoldingPrice (halfDraws 0) appleHolding)
      ∧ (updateHoldingPrice (halfDraws 0) appleHolding).price
          = appleHolding.price * (1 + (halfDraws 0 - 1/2) * (2/100))
      ∧ (99 : ℚ)/100 ≤ 1 + (halfDraws 0 - 1/2) * (2/100)
      ∧ 1 + (halfDraws 0 - 1/2) * (2/100) ≤ (101 : ℚ)/100) := by
  have hr : ∀ j : ℕ, 0 ≤ halfDraws j ∧ halfDraws j < 1 := by
    intro j
    constructor
    · show (0 : ℚ) ≤ 1/2
      norm_num
    · show (1 : ℚ)/2 < 1
      norm_num
  have hi : portfolioHoldings[0]? = some appleHolding := rfl
  exact ⟨hr, hi,
    c6_jitter_within_one_percent portfolioHoldings halfDraws 0 appleHolding hr hi⟩

/-! ## Claim C7 (displayed total equals the sum of shares × price) -/

/-- Claim C7: at startup and after every jitter cycle, the total value handed
to the display equals the sum of `shares * price` over the (ten) current
holdings. -/
theorem c7_displayed_total_is_sum (rs : ℕ → ℕ → ℚ) (noise : ℕ → ℚ) (n : ℕ) :
    (portfolioAfter rs noise n).display.totalValueShown
      = ((portfolioAfter rs noise n).holdings.map
          (fun h => h.shares * h.price)).sum
    ∧ (portfolioAfter rs noise n).holdings.length = 10 := by
  induction n with
  | zero =>
    refine ⟨?_, rfl⟩
    simp [portfolioAfter, setupPortfolioTracker, updatePortfolioDisplay,
      portfolioTotal_eq_sum]
  | succ n ih =>
    constructor
    · simp [portfolioAfter, portfolioStep, updatePortfolioDisplay,
        portfolioTotal_eq_sum]
    · simp only [portfolioAfter, portfolioStep]
      simp [jitterHoldings_length, ih.2]

/-! ## Claim C8 (key holdings: > 10% subset, sorted by share descending) -/

/-- Claim C8: the rendered key-holdings list is a permutation of the enriched
holdings whose value strictly exceeds 10% of the total (`percentage > 10` is
equivalent to `value > totalValue / 10` for a positive total), and it is sorted
by percentage share in descending order. -/
theorem c8_key_holdings_spec (hs : List Holding) (totalValue : ℚ)
    (htot : 0 < totalValue) :
    List.Perm (updatePortfolioHoldings hs totalValue)
      ((hs.map (toKeyHolding totalValue)).filter
        (fun k => decide (totalValue / 10 < k.value)))
    ∧ (updatePortfolioHoldings hs totalValue).Pairwise
        (fun a b => b.percentage ≤ a.percentage) := by
  have htrans : ∀ a b c : KeyHolding,
      keyHoldingLe a b → keyHoldingLe b c → keyHoldingLe a c := by
    intro a b c hab hbc
    simp only [keyHoldingLe, decide_eq_true_eq] at hab hbc ⊢
    exact le_trans hbc hab
  have htotal : ∀ a b : KeyHolding, keyHoldingLe a b || keyHoldingLe b a := by
    intro a b
    simp only [keyHoldingLe, Bool.or_eq_true, decide_eq_true_eq]
    exact le_total b.percentage a.percentage
  have hfc : (hs.map (toKeyHolding totalValue)).filter
        (fun k => decide (10 < k.percentage))
      = (hs.map (toKeyHolding totalValue)).filter
        (fun k => decide (totalValue / 10 < k.value)) := by
    apply List.filter_congr
    intro k hk
    obtain ⟨a, _, rfl⟩ := List.mem_map.mp hk
    simp only [toKeyHolding, decide_eq_decide]
    constructor
    · intro h
      rw [div_mul_eq_mul_div, lt_div_iff₀ htot] at h
      rw [div_lt_iff₀ (by norm_num : (0:ℚ) < 10)]
      linarith
    · intro h
      rw [div_lt_iff₀ (by norm_num : (0:ℚ) < 10)] at h
      rw [div_mul_eq_mul_div, lt_div_iff₀ htot]
      linarith
  constructor
  · have hp := List.mergeSort_perm
      ((hs.map (toKeyHolding totalValue)).filter
        (fun k => decide (10 < k.percentage))) keyHoldingLe
    unfold updatePortfolioHoldings
    exact hfc ▸ hp
  · have hsrt := List.sorted_mergeSort htrans htotal
      ((hs.map (toKeyHolding totalValue)).filter
        (fun k => decide (10 < k.percentage)))
    unfold updatePortfolioHoldings
    exact hsrt.imp (by intro a b h; simpa [keyHoldingLe] using h)

/-- Witness for C8 at the seeded holdings and their actual total. -/
theorem c8_key_holdings_spec_witness :
    0 < portfolioTotal portfolioHoldings
    ∧ (List.Perm
        (updatePortfolioHoldings portfolioHoldings
          (portfolioTotal portfolioHoldings))
        ((portfolioHoldings.map
            (toKeyHolding (portfolioTotal portfolioHoldings))).filter
          (fun k => decide (portfolioTotal portfolioHoldings / 10 < k.value)))
      ∧ (updatePortfolioHoldings portfolioHoldings
          (portfolioTotal portfolioHoldings)).Pairwise
          (fun a b => b.percentage ≤ a.percentage)) := by
  have h : 0 < portfolioTotal portfolioHoldings := by
    norm_num [portfolioTotal, portfolioHoldings, List.foldl]
  exact ⟨h, c8_key_holdings_spec portfolioHoldings
    (portfolioTotal portfolioHoldings) h⟩

/-! ## Claim C4 (recent posts: published, at most 3, date-descending, stable) -/

theorem postDateDescLe_trans : ∀ a b c : Post,
    postDateDescLe a b → postDateDescLe b c → postDateDescLe a c := by
  intro a b c hab hbc
  simp only [postDateDescLe, decide_eq_true_eq] at hab hbc ⊢
  exact le_trans hbc hab

theorem postDateDescLe_total : ∀ a b : Post,
    postDateDescLe a b || postDateDescLe b a := by
  intro a b
  simp only [postDateDescLe, Bool.or_eq_true, decide_eq_true_eq]
  exact le_total b.date a.date

/-- Stability of the date sort: restricted to any single date, the sorted list
is exactly the input list (the published-filtered posts) in its original
order. -/
theorem mergeSort_filter_date (P : List Post) (d : ℤ) :
    (P.mergeSort postDateDescLe).filter (fun p => decide (p.date = d))
      = P.filter (fun p => decide (p.date = d)) := by
  have h1 : List.Sublist (P.filter (fun p => decide (p.date = d))) P :=
    List.filter_sublist P
  have hpw : (P.filter (fun p => decide (p.date = d))).Pairwise
      (fun a b => postDateDescLe a b = true) := by
    apply List.pairwise_of_forall_mem_list
    intro a ha b hb
    have hda := List.of_mem_filter ha
    have hdb := List.of_mem_filter hb
    simp only [decide_eq_true_eq] at hda hdb
    simp only [postDateDescLe, decide_eq_true_eq, hda, hdb]
    exact le_refl d
  have h2 : List.Sublist (P.filter (fun p => decide (p.date = d)))
      (P.mergeSort postDateDescLe) :=
    List.sublist_mergeSort postDateDescLe_trans postDateDescLe_total hpw h1
  have h3 : List.Perm
      ((P.mergeSort postDateDescLe).filter (fun p => decide (p.date = d)))
      (P.filter (fun p => decide (p.date = d))) :=
    (List.mergeSort_perm P postDateDescLe).filter _
  have h4 : List.Sublist
      ((P.filter (fun p => decide (p.date = d))).filter
        (fun p => decide (p.date = d)))
      ((P.mergeSort postDateDescLe).filter (fun p => decide (p.date = d))) :=
    h2.filter _
  rw [List.filter_filter] at h4
  have h5 : (fun p => decide (p.date = d) && decide (p.date = d))
      = (fun p : Post => decide (p.date = d)) := by
    funext p
    rw [Bool.and_self]
  rw [h5] at h4
  exact (h4.eq_of_length h3.length_eq.symm).symm

/-- Claim C4: the rendered posts are at most 3, all published, sorted by date
descending, and — restricted to any single date — a prefix of the
published-filtered input in its original order (equal dates keep their
original relative order). -/
theorem c4_recent_posts_spec (posts : List Post) :
    (renderedRecentPosts posts).length ≤ 3
    ∧ (renderedRecentPosts posts).all (fun p => p.published) = true
    ∧ (renderedRecentPosts posts).Pairwise (fun a b => b.date ≤ a.date)
    ∧ ∀ d : ℤ,
        List.IsPrefix
          ((renderedRecentPosts posts).filter (fun p => decide (p.date = d)))
          ((publishedPosts posts).filter (fun p => decide (p.date = d))) := by
  refine ⟨?_, ?_, ?_, ?_⟩
  · exact List.length_take_le 3 _
  · rw [List.all_eq_true]
    intro p hp
    have hmem : p ∈ (publishedPosts posts).mergeSort postDateDescLe :=
      List.take_subset 3 _ hp
    rw [List.mem_mergeSort] at hmem
    exact List.of_mem_filter hmem
  · have hsrt := List.sorted_mergeSort postDateDescLe_trans postDateDescLe_total
      (publishedPosts posts)
    have hsrt' : ((publishedPosts posts).mergeSort postDateDescLe).Pairwise
        (fun a b : Post => b.date ≤ a.date) :=
      hsrt.imp (by intro a b h; simpa [postDateDescLe] using h)
    exact hsrt'.sublist (List.take_sublist 3 _)
  · intro d
    have hsplit : (publishedPosts posts).mergeSort postDateDescLe
        = ((publishedPosts posts).mergeSort postDateDescLe).take 3
          ++ ((publishedPosts posts).mergeSort postDateDescLe).drop 3 :=
      (List.take_append_drop 3 _).symm
    have hfuller : ((publishedPosts posts).mergeSort postDateDescLe).filter
          (fun p => decide (p.date = d))
        = (renderedRecentPosts posts).filter (fun p => decide (p.date = d))
          ++ (((publishedPosts posts).mergeSort postDateDescLe).drop 3).filter
              (fun p => decide (p.date = d)) := by
      conv_lhs => rw [hsplit]
      rw [List.filter_append]
      rfl
    rw [← mergeSort_filter_date (publishedPosts posts) d, hfuller]
    exact List.prefix_append _ _

/-! ## Claim C9 (newsletter-subscribe action) -/

/-- Claim C9: `"a@b.com"` yields the beehiiv redirect URL containing the
URL-encoded address (`a%40b.com`) and clears the field with no alert; `""` and
`"not-an-email"` yield a validation alert, no redirect, and an unchanged
field. -/
theorem c9_newsletter_action :
    (subscribeToNewsletter "a@b.com").openedUrl
        = some ("https://in-competence-we-trust.beehiiv.com/subscribe?email="
            ++ encodeURIComponent "a@b.com")
    ∧ encodeURIComponent "a@b.com" = "a%40b.com"
    ∧ List.IsInfix "a%40b.com".data
        (((subscribeToNewsletter "a@b.com").openedUrl.getD "").data)
    ∧ (subscribeToNewsletter "a@b.com").inputValue = ""
    ∧ (subscribeToNewsletter "a@b.com").alertMessage = none
    ∧ (subscribeToNewsletter "").openedUrl = none
    ∧ (subscribeToNewsletter "").alertMessage
        = some "Please enter your email address"
    ∧ (subscribeToNewsletter "").inputValue = ""
    ∧ (subscribeToNewsletter "not-an-email").openedUrl = none
    ∧ (subscribeToNewsletter "not-an-email").alertMessage
        = some "Please enter a valid email address"
    ∧ (subscribeToNewsletter "not-an-email").inputValue = "not-an-email" := by
  refine ⟨?_, ?_, ?_, ?_, ?_, ?_, ?_, ?_, ?_, ?_, ?_⟩ <;> decide

/-! ## Claim C1 (renderer interpolation and escaping) -/

theorem strData_infix_head (s t : String) : List.IsInfix s.data (s ++ t).data :=
  ⟨[], t.data, by simp⟩

theorem strData_infix_pre (a : String) {s t : String}
    (h : List.IsInfix s.data t.data) : List.IsInfix s.data (a ++ t).data := by
  obtain ⟨u, v, huv⟩ := h
  exact ⟨a.data ++ u, v, by rw [String.data_append, ← huv]; simp [List.append_assoc]⟩

theorem strData_infix_app (b : String) {s t : String}
    (h : List.IsInfix s.data t.data) : List.IsInfix s.data (t ++ b).data := by
  obtain ⟨u, v, huv⟩ := h
  exact ⟨u, v ++ b.data, by rw [String.data_append, ← huv]; simp [List.append_assoc]⟩

/-- An episode whose title carries HTML-significant characters. -/
def evilEpisode : Episode :=
  { number := 1, title := "<b>evil</b>", description := "d", date := 0,
    duration := "45 min", guest := none, featured := true }

set_option maxRecDepth 16384 in
/-- Claim C1, counterexample: the raw title `<b>evil</b>` — HTML-significant
characters included — appears verbatim in the fragment produced by
`createEpisodeCard`, and the fragment contains no `&` at all, so no entity
escaping (`&lt;` etc.) of the interpolated field took place. -/
theorem c1_escaping_counterexample :
    List.IsInfix "<b>evil</b>".data
      (createEpisodeCard (fun _ => "January 1, 2024") evilEpisode).data
    ∧ Char.ofNat 38 ∉ (createEpisodeCard (fun _ => "January 1, 2024") evilEpisode).data := by
  constructor <;> decide

/-- Claim C1, amended: the renderer interpolates every field verbatim — with no
escaping — into the fragment: the title, description, formatted date and
duration of an episode (and its guest line when shown), and the title, excerpt,
category and formatted date of a post, each occur as contiguous substrings of
the produced HTML fragment. -/
theorem c1_verbatim_interpolation (fmtDate : Int → String) (e : Episode) (p : Post) :
    List.IsInfix e.title.data (createEpisodeCard fmtDate e).data
    ∧ List.IsInfix e.description.data (createEpisodeCard fmtDate e).data
    ∧ List.IsInfix (fmtDate e.date).data (createEpisodeCard fmtDate e).data
    ∧ List.IsInfix e.duration.data (createEpisodeCard fmtDate e).data
    ∧ (if jsTruthyStr e.guest then
        List.IsInfix ("Guest: " ++ e.guest.getD "").data
          (createEpisodeCard fmtDate e).data
      else True)
    ∧ List.IsInfix p.title.data (createPostCard fmtDate p).data
    ∧ List.IsInfix p.excerpt.data (createPostCard fmtDate p).data
    ∧ List.IsInfix p.category.data (createPostCard fmtDate p).data
    ∧ List.IsInfix (fmtDate p.date).data (createPostCard fmtDate p).data := by
  refine ⟨?_, ?_, ?_, ?_, ?_, ?_, ?_, ?_, ?_⟩
  · simp only [createEpisodeCard]
    exact strData_infix_pre _ (strData_infix_pre _ (strData_infix_pre _
      (strData_infix_head _ _)))
  · simp only [createEpisodeCard]
    exact strData_infix_pre _ (strData_infix_pre _ (strData_infix_pre _
      (strData_infix_pre _ (strData_infix_pre _ (strData_infix_head _ _)))))
  · simp only [createEpisodeCard]
    exact strData_infix_pre _ (strData_infix_pre _ (strData_infix_pre _
      (strData_infix_pre _ (strData_infix_pre _ (strData_infix_pre _
      (strData_infix_pre _ (strData_infix_head _ _)))))))
  · simp only [createEpisodeCard]
    exact strData_infix_pre _ (strData_infix_pre _ (strData_infix_pre _
      (strData_infix_pre _ (strData_infix_pre _ (strData_infix_pre _
      (strData_infix_pre _ (strData_infix_pre _ (strData_infix_pre _
      (strData_infix_head _ _)))))))))
  · by_cases hg : jsTruthyStr e.guest
    · simp only [hg, if_true, createEpisodeCard, guestLine]
      refine strData_infix_pre _ (strData_infix_pre _ (strData_infix_pre _
        (strData_infix_pre _ (strData_infix_pre _ (strData_infix_pre _
        (strData_infix_pre _ (strData_infix_pre _ (strData_infix_pre _
        (strData_infix_pre _ (strData_infix_pre _ (strData_infix_app _
        (strData_infix_pre _ ?_))))))))))))
      exact ⟨[], "</div>".data, by simp⟩
    · simp [hg]
  · simp only [createPostCard]
    exact strData_infix_pre _ (strData_infix_pre _ (strData_infix_pre _
      (strData_infix_pre _ (strData_infix_pre _ (strData_infix_pre _
      (strData_infix_pre _ (strData_infix_head _ _)))))))
  · simp only [createPostCard]
    exact strData_infix_pre _ (strData_infix_pre _ (strData_infix_pre _
      (strData_infix_pre _ (strData_infix_pre _ (strData_infix_pre _
      (strData_infix_pre _ (strData_infix_pre _ (strData_infix_pre _
      (strData_infix_head _ _)))))))))
  · simp only [createPostCard]
    exact strData_infix_pre _ (strData_infix_pre _ (strData_infix_pre _
      (strData_infix_pre _ (strData_infix_pre _ (strData_infix_pre _
      (strData_infix_pre _ (strData_infix_pre _ (strData_infix_pre _
      (strData_infix_pre _ (strData_infix_pre _ (strData_infix_head _ _)))))))))))
  · simp only [createPostCard]
    exact strData_infix_pre _ (strData_infix_head _ _)
